import Mathlib

/-!
Verification development for the window lifecycle and session-restoration
manager of the code editor (src/vs/code/electron-main/windows.ts).

The TypeScript source is shallowly embedded: the persisted windows state,
the per-window records and the manager handlers become Lean structures and
pure functions; external collaborators (file system, workspace resolver,
window finder, backup registry, configuration) become explicit oracle
fields of an environment record, so every theorem is quantified over all
of their possible behaviours.  JavaScript truthiness of strings and of
optional objects is modelled explicitly where the source relies on it.
-/

namespace VSCode

/-- JavaScript truthiness for an optional string value: present and nonempty.
The source frequently guards on values such as win.openedFolderPath with
plain truthiness checks. -/
def truthyStr : Option String → Bool
  | some s => s ≠ ""
  | none => false

/-- IWorkspaceIdentifier (vs/platform/workspaces/common/workspaces): the id is
identity-derived, the configPath is the resolved file location. -/
structure WorkspaceIdentifier where
  id : String
  configPath : String
deriving DecidableEq

/-- ISingleWindowState: the serializable UI geometry of one window
(x/y/width/height and a window mode: Normal/Maximized/Fullscreen encoded
as a number). -/
structure SingleWindowState where
  x : Int := 0
  y : Int := 0
  width : Int := 0
  height : Int := 0
  mode : Nat := 0
deriving DecidableEq

/-- ILegacyWindowState / IWindowState: one persisted per-window record.  The
field workspacePath only occurs in raw legacy data and is removed by
migrateLegacyWindowState. -/
structure WindowState where
  workspace : Option WorkspaceIdentifier := none
  folderPath : Option String := none
  backupPath : Option String := none
  uiState : SingleWindowState := {}
  workspacePath : Option String := none
deriving DecidableEq

/-- ILegacyWindowsState: the raw persisted blob as loaded from storage.  Both
container fields may be absent in legacy data, hence the Option types. -/
structure WindowsState where
  lastActiveWindow : Option WindowState := none
  lastPluginDevelopmentHostWindow : Option WindowState := none
  openedWindows : Option (List WindowState) := none
  openedFolders : Option (List WindowState) := none
deriving DecidableEq

/-- IWindowsState as held in memory by the manager after load and migration:
the constructor defaults to openedWindows being present, and
migrateLegacyWindowState guarantees it, so openedWindows is a plain list. -/
structure ManagerWindowsState where
  lastActiveWindow : Option WindowState := none
  lastPluginDevelopmentHostWindow : Option WindowState := none
  openedWindows : List WindowState := []
deriving DecidableEq

/-- Migration of one window record: the legacy workspacePath string field is
renamed to folderPath (the typeof check of the source accepts any string,
including the empty one). -/
def migrateWindowRecord (w : WindowState) : WindowState :=
  match w.workspacePath with
  | some p => { w with folderPath := some p, workspacePath := none }
  | none => w

/-- WindowsManager.migrateLegacyWindowState: first the container rename
(openedFolders, when a nonempty array, becomes openedWindows; otherwise an
absent openedWindows is defaulted to the empty list), then the
workspacePath rename applied to lastActiveWindow,
lastPluginDevelopmentHostWindow and every entry of openedWindows. -/
def migrateLegacyWindowState (s : WindowsState) : WindowsState :=
  let s1 :=
    match s.openedFolders with
    | some l =>
      if l.isEmpty then
        match s.openedWindows with
        | none => { s with openedWindows := some [] }
        | some _ => s
      else { s with openedWindows := some l, openedFolders := none }
    | none =>
      match s.openedWindows with
      | none => { s with openedWindows := some [] }
      | some _ => s
  { s1 with
    lastActiveWindow := s1.lastActiveWindow.map migrateWindowRecord,
    lastPluginDevelopmentHostWindow :=
      s1.lastPluginDevelopmentHostWindow.map migrateWindowRecord,
    openedWindows := s1.openedWindows.map (fun l => l.map migrateWindowRecord) }

/-- CodeWindow surface consumed by the manager: a live window handle with its
identity, current content identifiers, backup path, the two extension-host
flags, and the UI geometry returned by serializeWindowState(). -/
structure CodeWindow where
  id : Nat
  openedWorkspace : Option WorkspaceIdentifier := none
  openedFolderPath : Option String := none
  backupPath : Option String := none
  isExtensionDevelopmentHost : Bool := false
  isExtensionTestHost : Bool := false
  serializeWindowState : SingleWindowState := {}
deriving DecidableEq

/-- WindowsManager.toWindowState: snapshot of a live window into a persisted
window record. -/
def toWindowState (win : CodeWindow) : WindowState :=
  { workspace := win.openedWorkspace
    folderPath := win.openedFolderPath
    backupPath := win.backupPath
    uiState := win.serializeWindowState
    workspacePath := none }

/-- Case-insensitive string comparison, as used by path equality when the
ignorecase flag is set. -/
def equalsIgnoreCase (a b : String) : Bool :=
  a.toLower == b.toLower

/-- Modelled from the spec: isEqual of vs/base/common/paths is not part of this
excerpt; the spec states that folder paths are compared case-sensitively on
Linux and case-insensitively elsewhere.  Two absent values compare equal by
identity; an absent value never equals a present one. -/
def pathsIsEqual (a b : Option String) (ignoreCase : Bool) : Bool :=
  match a, b with
  | some x, some y => if x == y then true else if ignoreCase then equalsIgnoreCase x y else false
  | none, none => true
  | _, _ => false

/-- Mutable state of the manager relevant to the close/quit handlers: the
in-memory windows state and the last-closed-window snapshot. -/
structure ManagerState where
  windowsState : ManagerWindowsState := {}
  lastClosedWindowState : Option WindowState := none
deriving DecidableEq

/-- Matching predicate of the close handler: the stored entry has the same
workspace id as the closing window, or the same folder path, compared
case-sensitively only on Linux. -/
def sameWorkspaceOrFolder (isLinux : Bool) (win : CodeWindow) (o : WindowState) : Bool :=
  let sameWorkspace :=
    match win.openedWorkspace, o.workspace with
    | some ww, some ow => ow.id == ww.id
    | _, _ => false
  let sameFolder :=
    truthyStr win.openedFolderPath &&
      pathsIsEqual o.folderPath win.openedFolderPath (!isLinux)
  sameWorkspace || sameFolder

/-- WindowsManager.onBeforeWindowClose: during quit the handler returns at
once; otherwise an extension development host (that is not a test host)
updates lastPluginDevelopmentHostWindow, a normal window with a workspace
or folder updates the uiState of every matching openedWindows entry, and
the last remaining window is remembered as lastClosedWindowState.
windowCount is the value of getWindowCount() at the time of the event. -/
def onBeforeWindowClose (isLinux : Bool) (isQuitRequested : Bool) (windowCount : Nat)
    (win : CodeWindow) (s : ManagerState) : ManagerState :=
  if isQuitRequested then s
  else
    let state := toWindowState win
    let ws :=
      if win.isExtensionDevelopmentHost && !win.isExtensionTestHost then
        { s.windowsState with lastPluginDevelopmentHostWindow := some state }
      else if !win.isExtensionDevelopmentHost &&
          (win.openedWorkspace.isSome || truthyStr win.openedFolderPath) then
        { s.windowsState with
          openedWindows := s.windowsState.openedWindows.map (fun o =>
            if sameWorkspaceOrFolder isLinux win o then { o with uiState := state.uiState }
            else o) }
      else s.windowsState
    { windowsState := ws
      lastClosedWindowState :=
        if windowCount == 1 then some state else s.lastClosedWindowState }

/-- WindowsManager.onBeforeQuit: builds the persisted legacy-shaped blob.  The
last active window is the stored last-closed snapshot, else the last
active live window unless it is an extension development host, else the
first live non-extension-development window.  getLastActiveWindow is the
window finder oracle result.  All non-extension-development windows are
snapshotted into openedWindows only when more than one window is open. -/
def onBeforeQuit (windows : List CodeWindow) (getLastActiveWindow : Option CodeWindow)
    (s : ManagerState) : WindowsState :=
  let lastActiveWindow :=
    match s.lastClosedWindowState with
    | some st => some st
    | none =>
      let activeWindow : Option CodeWindow :=
        match getLastActiveWindow with
        | some w =>
          if w.isExtensionDevelopmentHost then
            (windows.filter (fun x : CodeWindow => !x.isExtensionDevelopmentHost)).head?
          else some w
        | none => (windows.filter (fun x : CodeWindow => !x.isExtensionDevelopmentHost)).head?
      activeWindow.map toWindowState
  let lastPluginDevelopmentHostWindow :=
    match (windows.filter (fun w => w.isExtensionDevelopmentHost && !w.isExtensionTestHost)).head? with
    | some w => some (toWindowState w)
    | none => s.windowsState.lastPluginDevelopmentHostWindow
  let openedWindows :=
    if windows.length > 1 then
      (windows.filter (fun w => !w.isExtensionDevelopmentHost)).map toWindowState
    else []
  { openedWindows := some openedWindows
    openedFolders := some []
    lastActiveWindow := lastActiveWindow
    lastPluginDevelopmentHostWindow := lastPluginDevelopmentHostWindow }

/-- IWindowsCountChangedEvent: payload of the windows-count-changed event. -/
structure WindowsCountChangedEvent where
  oldCount : Nat
  newCount : Nat
deriving DecidableEq

/-- JavaScript Array.prototype.splice with delete count 1: a negative start is
taken from the end (clamped at 0), a start beyond the end removes nothing. -/
def jsSplice1 {α : Type} (l : List α) (i : Int) : List α :=
  let start : Nat := if i < 0 then (l.length + i).toNat else min i.toNat l.length
  l.take start ++ l.drop (start + 1)

/-- Window-creation fragment of WindowsManager.openInBrowserWindow: the new
window is pushed onto WINDOWS and the count event is fired with the list
length after the push. -/
def openInBrowserWindowAddAndFire (windows : List CodeWindow) (w : CodeWindow) :
    List CodeWindow × WindowsCountChangedEvent :=
  let windows2 := windows ++ [w]
  (windows2, { oldCount := windows2.length - 1, newCount := windows2.length })

/-- WindowsManager.onWindowClosed: the window is disposed, removed from the
live list via indexOf and splice, and the count event is fired with the
list length after the removal.  An absent window yields index -1, matching
the JavaScript behaviour of indexOf and splice. -/
def onWindowClosed (windows : List CodeWindow) (win : CodeWindow) :
    List CodeWindow × WindowsCountChangedEvent :=
  let index : Int :=
    match windows.findIdx? (fun w => w == win) with
    | some n => (n : Int)
    | none => -1
  let windows2 := jsSplice1 windows index
  (windows2, { oldCount := windows2.length + 1, newCount := windows2.length })

/-- ConfirmResult of the untitled-workspace save prompt. -/
inductive ConfirmResult where
  | saveIt
  | dontSave
  | cancel
deriving DecidableEq

/-- Button rows of the save prompt, in on-screen order per OS family. -/
def promptButtons (isWindows isLinux : Bool) : List ConfirmResult :=
  if isWindows then [ConfirmResult.saveIt, ConfirmResult.dontSave, ConfirmResult.cancel]
  else if isLinux then [ConfirmResult.dontSave, ConfirmResult.cancel, ConfirmResult.saveIt]
  else [ConfirmResult.saveIt, ConfirmResult.cancel, ConfirmResult.dontSave]

def promptButtons_length (isWindows isLinux : Bool) :
    (promptButtons isWindows isLinux).length = 3 := by
  unfold promptButtons
  cases isWindows <;> cases isLinux <;> rfl

/-- Observable outcome of promptToSaveUntitledWorkspace: the value passed to
the unload veto, and whether the untitled workspace backing storage was
deleted. -/
structure PromptOutcome where
  veto : Bool
  deletedWorkspace : Bool
deriving DecidableEq

/-- WindowsManager.promptToSaveUntitledWorkspace.  res is the dialog result
index into the per-OS button row (the dialog only returns a valid index).
saveTarget is the result of the native save-target picker; saveResult is
the outcome of the asynchronous saveWorkspace call.  The Save branch
passes the saveWorkspace promise chained with handlers that resolve to
false on success and on failure alike, so the veto value is independent of
the save outcome. -/
def promptToSaveUntitledWorkspace (isWindows isLinux : Bool) (res : Fin 3)
    (saveTarget : Option String) (saveResult : Except Unit Unit) : PromptOutcome :=
  match (promptButtons isWindows isLinux).get
      (Fin.cast (promptButtons_length isWindows isLinux).symm res) with
  | ConfirmResult.cancel => { veto := true, deletedWorkspace := false }
  | ConfirmResult.dontSave => { veto := false, deletedWorkspace := true }
  | ConfirmResult.saveIt =>
    match saveTarget with
    | some _ =>
      let vetoValue :=
        match saveResult with
        | Except.ok _ => false
        | Except.error _ => false
      { veto := vetoValue, deletedWorkspace := false }
    | none => { veto := true, deletedWorkspace := false }

/-- WindowToOpen / IWindowToOpen: one resolved open target, produced by path
parsing or by the session-restore algorithm.  createFilePath is false when
the field is absent in the JavaScript object. -/
structure WindowToOpen where
  workspace : Option WorkspaceIdentifier := none
  folderPath : Option String := none
  backupPath : Option String := none
  filePath : Option String := none
  lineNumber : Option Nat := none
  columnNumber : Option Nat := none
  createFilePath : Bool := false
deriving DecidableEq

/-- RestoreWindowsSetting values and the window section of the user
configuration consumed by the manager (restoreWindows, the legacy
reopenFolders alias, and the open-in-new-window settings). -/
structure WindowConfig where
  restoreWindows : Option String := none
  reopenFolders : Option String := none
  openFoldersInNewWindow : Option String := none
  openFilesInNewWindow : Option String := none
deriving DecidableEq

/-- Result type of findBestWindowOrFolderForFile: an existing window, a folder
path whose window should host the files, or no match. -/
inductive BestMatch where
  | window (w : CodeWindow)
  | folder (f : String)
  | noMatch
deriving DecidableEq

/-- Environment of external collaborators, each an explicit oracle: the file
system stat (some true = file, some false = directory or other, none =
stat throws), the workspace resolver, path normalization, the
line/column-aware CLI path parser, the backup registry contents, the
lifecycle restart flag, the configuration, and the window finder.  The
window finder functions (vs/code/node/windowsFinder) are not part of this
excerpt, so they stay fully abstract here and theorems hold for every
possible behaviour of them. -/
structure Env where
  isLinux : Bool := true
  normalize : String → String := id
  basename : String → String := id
  fsStatIsFile : String → Option Bool := fun _ => none
  resolveWorkspaceSync : String → Option String := fun _ => none
  parseLineAndColumnAware : String → String × Option Nat × Option Nat :=
    fun s => (s, none, none)
  isUntitledWorkspace : WorkspaceIdentifier → Bool := fun _ => false
  folderBackupPaths : List String := []
  workspaceBackups : List WorkspaceIdentifier := []
  emptyWindowBackupPaths : List String := []
  wasRestarted : Bool := false
  windowConfig : Option WindowConfig := none
  findWindowOnWorkspace : WorkspaceIdentifier → Option CodeWindow := fun _ => none
  findWindowOnFolder : String → Option CodeWindow := fun _ => none
  bestWindowOrFolder : BestMatch := BestMatch.noMatch
  lastActive : Option CodeWindow := none

/-- Modelled from the spec: arrays.coalesce (vs/base/common/arrays) removes
null and undefined entries. -/
def coalesce {α : Type} (l : List (Option α)) : List α :=
  l.filterMap id

/-- Modelled from the spec: arrays.distinct (vs/base/common/arrays) keeps the
first occurrence of every key. -/
def jsDistinct {α κ : Type} [DecidableEq κ] (key : α → κ) : List α → List α :=
  go []
where
  go (seen : List κ) : List α → List α
    | [] => []
    | a :: rest =>
      if key a ∈ seen then go seen rest else a :: go (key a :: seen) rest

/-- WindowsManager.parsePath: empty or absent input yields null; in goto mode
the line/column suffix is split off first; the path is normalized and
stat-ed.  A file that resolves as a workspace config yields a workspace
target, any other file a file target, a directory a folder target; a
failing stat yields a to-be-created file target only when
ignoreFileNotFound is set (the recently-opened-list removal side effect is
not modelled). -/
def parsePath (env : Env) (anyPath : Option String) (ignoreFileNotFound : Bool)
    (gotoLineMode : Bool) : Option WindowToOpen :=
  match anyPath with
  | none => none
  | some p0 =>
    if p0 = "" then none
    else
      let parsed := env.parseLineAndColumnAware p0
      let p1 := if gotoLineMode then parsed.1 else p0
      let candidate := env.normalize p1
      match env.fsStatIsFile candidate with
      | some true =>
        match env.resolveWorkspaceSync candidate with
        | some wsId => some { workspace := some { id := wsId, configPath := candidate } }
        | none =>
          some { filePath := some candidate
                 lineNumber := if gotoLineMode then parsed.2.1 else none
                 columnNumber := if gotoLineMode then parsed.2.2 else none }
      | some false => some { folderPath := some candidate }
      | none =>
        if ignoreFileNotFound then some { filePath := some candidate, createFilePath := true }
        else none

/-- WindowsManager.getRestoreWindowsSetting: a restart forces the all mode;
otherwise the window.restoreWindows setting (default one), with the legacy
reopenFolders setting taken as an alias only while restoreWindows is at
its default, and any unknown value falling back to one. -/
def getRestoreWindowsSetting (env : Env) : String :=
  if env.wasRestarted then "all"
  else
    let r0 :=
      match env.windowConfig with
      | some cfg =>
        match cfg.restoreWindows with
        | some v => if v = "" then "one" else v
        | none => "one"
      | none => "one"
    let r1 :=
      if r0 = "one" then
        match env.windowConfig with
        | some cfg =>
          match cfg.reopenFolders with
          | some v => if v = "" then r0 else v
          | none => r0
        | none => r0
      else r0
    if r1 = "all" ∨ r1 = "folders" ∨ r1 = "one" ∨ r1 = "none" then r1 else "one"

/-- WindowsManager.doGetWindowsFromLastSession: computes the restore targets
from the persisted session state according to the restore setting; every
branch that fails to validate falls back to a single empty-window
target. -/
def doGetWindowsFromLastSession (env : Env) (ws : ManagerWindowsState) : List WindowToOpen :=
  let restoreWindows := getRestoreWindowsSetting env
  if restoreWindows = "none" then [{}]
  else if restoreWindows = "one" then
    match ws.lastActiveWindow with
    | none => [{}]
    | some lastActiveWindow =>
      match lastActiveWindow.workspace with
      | some candidateWorkspace =>
        match parsePath env (some candidateWorkspace.configPath) false false with
        | some validatedWorkspace =>
          if validatedWorkspace.workspace.isSome then [validatedWorkspace] else [{}]
        | none => [{}]
      | none =>
        if truthyStr lastActiveWindow.folderPath then
          match parsePath env lastActiveWindow.folderPath false false with
          | some validatedFolder =>
            if truthyStr validatedFolder.folderPath then [validatedFolder] else [{}]
          | none => [{}]
        else if truthyStr lastActiveWindow.backupPath then
          [{ backupPath := lastActiveWindow.backupPath }]
        else [{}]
  else if restoreWindows = "all" ∨ restoreWindows = "folders" then
    let workspaceCandidates :=
      (ws.openedWindows.filterMap (fun w => w.workspace)) ++
        (match ws.lastActiveWindow with
         | some law => match law.workspace with | some c => [c] | none => []
         | none => [])
    let fromWorkspaces :=
      (workspaceCandidates.map (fun c => parsePath env (some c.configPath) false false)).filterMap
        (fun w => match w with
          | some v => if v.workspace.isSome then some v else none
          | none => none)
    let folderCandidates :=
      (ws.openedWindows.filterMap (fun w =>
        if truthyStr w.folderPath then w.folderPath else none)) ++
        (match ws.lastActiveWindow with
         | some law => if truthyStr law.folderPath then [law.folderPath.getD ""] else []
         | none => [])
    let fromFolders :=
      (folderCandidates.map (fun c => parsePath env (some c) false false)).filterMap
        (fun w => match w with
          | some v => if truthyStr v.folderPath then some v else none
          | none => none)
    let empties :=
      if restoreWindows = "all" then
        let lastOpenedEmpty := ws.openedWindows.filterMap (fun w =>
          if !w.workspace.isSome && !truthyStr w.folderPath && truthyStr w.backupPath then
            w.backupPath
          else none)
        let lastActiveEmpty :=
          match ws.lastActiveWindow with
          | some law =>
            if !law.workspace.isSome && !truthyStr law.folderPath &&
                truthyStr law.backupPath then
              law.backupPath
            else none
          | none => none
        let allEmpty := lastOpenedEmpty ++
          (match lastActiveEmpty with | some b => [b] | none => [])
        allEmpty.map (fun b => ({ backupPath := some b } : WindowToOpen))
      else []
    let windowsToOpen := fromWorkspaces ++ fromFolders ++ empties
    if windowsToOpen.isEmpty then [{}] else windowsToOpen
  else [{}]

/-- Concrete deleted-workspace scenario used by the C6 witness: the default
environment stats every path as missing. -/
def lastActiveDeletedWs : WindowState :=
  { workspace := some { id := "w1", configPath := "/gone.code-workspace" } }

/-- OpenContext: where an open request originates from. -/
inductive OpenContext where
  | CLI
  | DOCK
  | MENU
  | DIALOG
  | DESKTOP
  | API
deriving DecidableEq

/-- ParsedArgs fields consumed by the manager; positional models the
underscore member holding the positional CLI arguments. -/
structure ParsedArgs where
  positional : List String := []
  gotoLineMode : Bool := false
  extensionDevelopmentPath : Option String := none
  extensionTestsPath : Option String := none
  diff : Bool := false
  wait : Bool := false
  waitMarkerFilePath : Option String := none
deriving DecidableEq

/-- IOpenConfiguration: the flags controlling one open() invocation. -/
structure OpenConfig where
  context : OpenContext := OpenContext.CLI
  cli : ParsedArgs := {}
  pathsToOpen : List String := []
  forceEmpty : Bool := false
  forceNewWindow : Bool := false
  preferNewWindow : Bool := false
  forceReuseWindow : Bool := false
  diffMode : Bool := false
  initialStartup : Bool := false
deriving DecidableEq

/-- WindowsManager.shouldOpenNewWindow: settings can decide whether folders
and files open in a new window unless a force flag overrides them.  The
second component starts out undefined in the source and is used only as a
boolean, so false models the unassigned case. -/
def shouldOpenNewWindow (env : Env) (cfg : OpenConfig) : Bool × Bool :=
  let openFolderInNewWindowConfig :=
    match env.windowConfig with
    | some c =>
      match c.openFoldersInNewWindow with
      | some v => if v = "" then "default" else v
      | none => "default"
    | none => "default"
  let openFilesInNewWindowConfig :=
    match env.windowConfig with
    | some c =>
      match c.openFilesInNewWindow with
      | some v => if v = "" then "off" else v
      | none => "off"
    | none => "off"
  let f0 := (cfg.preferNewWindow || cfg.forceNewWindow) && !cfg.forceReuseWindow
  let openFolderInNewWindow :=
    if !cfg.forceNewWindow && !cfg.forceReuseWindow &&
        (openFolderInNewWindowConfig = "on" ∨ openFolderInNewWindowConfig = "off") then
      openFolderInNewWindowConfig = "on"
    else f0
  let openFilesInNewWindow :=
    if cfg.forceNewWindow || cfg.forceReuseWindow then
      cfg.forceNewWindow && !cfg.forceReuseWindow
    else
      let g1 := cfg.context = OpenContext.DOCK
      if !truthyStr cfg.cli.extensionDevelopmentPath &&
          (openFilesInNewWindowConfig = "on" ∨ openFilesInNewWindowConfig = "off") then
        openFilesInNewWindowConfig = "on"
      else g1
  (openFolderInNewWindow, openFilesInNewWindow)

/-- Trace events of one doOpen invocation.  routeFiles records a
doOpenFilesInExistingWindow call; filesNewWindow the file-block fallback
that always forces a new window; workspaceRename the reload of an existing
window whose workspace config path changed; openWorkspace, openFolder and
openEmpty record the value of the open-in-new-window flag that the
placement consumed; emptyRestore always forces a new window. -/
inductive OpenEvent where
  | routeFiles (winId : Nat)
  | filesNewWindow
  | workspaceRename (winId : Nat)
  | openWorkspace (wsId : String) (newWindow : Bool)
  | openFolder (folder : String) (newWindow : Bool)
  | emptyRestore (backupFolder : String)
  | openEmpty (newWindow : Bool)
deriving DecidableEq

/-- Mutable locals of doOpen threaded through its placement steps: the sticky
openFolderInNewWindow flag, the three pending file lists, the used-windows
accumulator, the emitted trace and a fresh-id counter for newly created
windows. -/
structure Acc where
  openFolderInNewWindow : Bool := false
  filesToOpen : List WindowToOpen := []
  filesToCreate : List WindowToOpen := []
  filesToDiff : List WindowToOpen := []
  usedWindows : List CodeWindow := []
  events : List OpenEvent := []
  nextId : Nat := 0
deriving DecidableEq

/-- Freshly created CodeWindow: its content loads asynchronously after the
unload negotiation, so within the synchronous open call it reports no
opened workspace or folder. -/
def freshWindow (nextId : Nat) : CodeWindow :=
  { id := nextId }

/-- Window selection of WindowsManager.openInBrowserWindow: reuse the
designated window or the last active one unless a new window is forced;
otherwise allocate a fresh window. -/
def openInBrowserWindowM (env : Env) (forceNewWindow : Bool)
    (windowToUse : Option CodeWindow) (nextId : Nat) : CodeWindow × Nat :=
  let existing : Option CodeWindow :=
    if !forceNewWindow then
      match windowToUse with
      | some w => some w
      | none => env.lastActive
    else none
  match existing with
  | some w => (w, nextId)
  | none => (freshWindow nextId, nextId + 1)

/-- WindowsManager.doOpenFilesInExistingWindow: the pending files are sent to
the given window, the pending lists are reset, and at the call sites
inside the workspace and folder sections the new-window flag is set. -/
def routeFilesInto (acc : Acc) (w : CodeWindow) (setNewWindowFlag : Bool) : Acc :=
  { acc with
    usedWindows := acc.usedWindows ++ [w]
    events := acc.events ++ [OpenEvent.routeFiles w.id]
    filesToOpen := []
    filesToCreate := []
    filesToDiff := []
    openFolderInNewWindow := if setNewWindowFlag then true else acc.openFolderInNewWindow }

/-- File block of doOpen: runs only when no folder, folder-restore or
empty-restore is pending and files are present; the best window or folder
from the window finder either absorbs the files, contributes its workspace
or folder to the pending lists, or the files go to a brand-new empty
window. -/
def fileSectionStage (env : Env) (foldersToRestore emptyToRestore : List String)
    (acc : Acc) (workspacesToOpen : List WorkspaceIdentifier) (foldersToOpen : List String) :
    Acc × List WorkspaceIdentifier × List String :=
  if foldersToOpen.isEmpty && foldersToRestore.isEmpty && emptyToRestore.isEmpty &&
      (!acc.filesToOpen.isEmpty || !acc.filesToCreate.isEmpty || !acc.filesToDiff.isEmpty) then
    match env.bestWindowOrFolder with
    | BestMatch.window w =>
      match w.openedWorkspace with
      | some ows => (acc, workspacesToOpen ++ [ows], foldersToOpen)
      | none =>
        match w.openedFolderPath with
        | some f =>
          if f ≠ "" then (acc, workspacesToOpen, foldersToOpen ++ [f])
          else (routeFilesInto acc w false, workspacesToOpen, foldersToOpen)
        | none => (routeFilesInto acc w false, workspacesToOpen, foldersToOpen)
    | BestMatch.folder f => (acc, workspacesToOpen, foldersToOpen ++ [f])
    | BestMatch.noMatch =>
      let p := openInBrowserWindowM env true none acc.nextId
      ({ acc with
          usedWindows := acc.usedWindows ++ [p.1]
          events := acc.events ++ [OpenEvent.filesNewWindow]
          filesToOpen := []
          filesToCreate := []
          filesToDiff := []
          nextId := p.2 }, workspacesToOpen, foldersToOpen)
  else (acc, workspacesToOpen, foldersToOpen)

/-- Rename pass of the workspace section: a live window holding the same
workspace id under a different config path is reloaded in place with the
new config path; the pending files ride along and the new-window flag
becomes sticky. -/
def workspaceRenameStep (env : Env) (acc : Acc) (workspaceToOpen : WorkspaceIdentifier) : Acc :=
  match env.findWindowOnWorkspace workspaceToOpen with
  | some existingWindow =>
    match existingWindow.openedWorkspace with
    | some ows =>
      if ows.configPath ≠ workspaceToOpen.configPath then
        let p := openInBrowserWindowM env false (some existingWindow) acc.nextId
        { acc with
          usedWindows := acc.usedWindows ++ [p.1]
          events := acc.events ++ [OpenEvent.workspaceRename existingWindow.id]
          filesToOpen := []
          filesToCreate := []
          filesToDiff := []
          openFolderInNewWindow := true
          nextId := p.2 }
      else acc
    | none => acc
  | none => acc

/-- Open-remaining pass of the workspace section: workspaces already open in
a live window are skipped; the rest open via doOpenFolderOrWorkspace with
the current new-window flag, which becomes sticky afterwards. -/
def openWorkspaceStep (env : Env) (windowsOnWorkspace : List CodeWindow)
    (acc : Acc) (workspaceToOpen : WorkspaceIdentifier) : Acc :=
  if windowsOnWorkspace.any (fun win =>
      match win.openedWorkspace with
      | some o => o.id == workspaceToOpen.id
      | none => false) then acc
  else
    let p := openInBrowserWindowM env acc.openFolderInNewWindow none acc.nextId
    { acc with
      usedWindows := acc.usedWindows ++ [p.1]
      events := acc.events ++
        [OpenEvent.openWorkspace workspaceToOpen.id acc.openFolderInNewWindow]
      filesToOpen := []
      filesToCreate := []
      filesToDiff := []
      openFolderInNewWindow := true
      nextId := p.2 }

/-- Deduplication of instructed and restored workspaces by workspace id. -/
def allWorkspacesList (workspacesToOpen workspacesToRestore : List WorkspaceIdentifier) :
    List WorkspaceIdentifier :=
  jsDistinct (fun w : WorkspaceIdentifier => w.id) (workspacesToOpen ++ workspacesToRestore)

/-- Workspace section of doOpen: deduplicate instructed and restored
workspaces by id, run the rename pass, route pending files into the first
live window already holding one of the workspaces, then open the remaining
ones. -/
def workspaceSectionStage (env : Env) (workspacesToRestore : List WorkspaceIdentifier)
    (acc : Acc) (workspacesToOpen : List WorkspaceIdentifier) : Acc :=
  let allWorkspacesToOpen := allWorkspacesList workspacesToOpen workspacesToRestore
  if allWorkspacesToOpen.isEmpty then acc
  else
    let accA := allWorkspacesToOpen.foldl (workspaceRenameStep env) acc
    let windowsOnWorkspace := coalesce (allWorkspacesToOpen.map env.findWindowOnWorkspace)
    let accB :=
      match windowsOnWorkspace with
      | w0 :: _ => routeFilesInto accA w0 true
      | [] => accA
    allWorkspacesToOpen.foldl (openWorkspaceStep env windowsOnWorkspace) accB

/-- Open-remaining pass of the folder section, mirroring openWorkspaceStep
with folder-path equality (case-sensitive only on Linux). -/
def openFolderStep (env : Env) (windowsOnFolderPath : List CodeWindow)
    (acc : Acc) (folderToOpen : String) : Acc :=
  if windowsOnFolderPath.any (fun win =>
      pathsIsEqual win.openedFolderPath (some folderToOpen) (!env.isLinux)) then acc
  else
    let p := openInBrowserWindowM env acc.openFolderInNewWindow none acc.nextId
    { acc with
      usedWindows := acc.usedWindows ++ [p.1]
      events := acc.events ++
        [OpenEvent.openFolder folderToOpen acc.openFolderInNewWindow]
      filesToOpen := []
      filesToCreate := []
      filesToDiff := []
      openFolderInNewWindow := true
      nextId := p.2 }

/-- Deduplication of instructed and restored folders, case-sensitive only on
Linux. -/
def allFoldersList (env : Env) (foldersToOpen foldersToRestore : List String) :
    List String :=
  jsDistinct (fun f : String => if env.isLinux then f else f.toLower)
    (foldersToOpen ++ foldersToRestore)

/-- Folder section of doOpen: deduplicate instructed and restored folders
(case handling per OS), route pending files into the first live window
already on one of the folders, then open the remaining ones. -/
def folderSectionStage (env : Env) (foldersToRestore : List String)
    (acc : Acc) (foldersToOpen : List String) : Acc :=
  let allFoldersToOpen := allFoldersList env foldersToOpen foldersToRestore
  if allFoldersToOpen.isEmpty then acc
  else
    let windowsOnFolderPath := coalesce (allFoldersToOpen.map env.findWindowOnFolder)
    let accB :=
      match windowsOnFolderPath with
      | w0 :: _ => routeFilesInto acc w0 true
      | [] => acc
    allFoldersToOpen.foldl (openFolderStep env windowsOnFolderPath) accB

/-- Empty-restore pass of doOpen: every hot-exit empty-window backup opens in
a forced new window, consuming the pending files and making the new-window
flag sticky. -/
def emptyRestoreStep (env : Env) (acc : Acc) (emptyWindowBackupFolder : String) : Acc :=
  let p := openInBrowserWindowM env true none acc.nextId
  { acc with
    usedWindows := acc.usedWindows ++ [p.1]
    events := acc.events ++ [OpenEvent.emptyRestore emptyWindowBackupFolder]
    filesToOpen := []
    filesToCreate := []
    filesToDiff := []
    openFolderInNewWindow := true
    nextId := p.2 }

/-- One iteration of the final empty-window loop of doOpen. -/
def emptyOpenStep (env : Env) (acc : Acc) : Acc :=
  let p := openInBrowserWindowM env acc.openFolderInNewWindow none acc.nextId
  { acc with
    usedWindows := acc.usedWindows ++ [p.1]
    events := acc.events ++ [OpenEvent.openEmpty acc.openFolderInNewWindow]
    openFolderInNewWindow := true
    nextId := p.2 }

/-- Final stage of doOpen: only when no other window was opened, open exactly
emptyToOpen empty windows. -/
def emptyOpenStage (env : Env) (emptyToOpen : Nat) (acc : Acc) : Acc :=
  if acc.usedWindows.isEmpty then (emptyOpenStep env)^[emptyToOpen] acc else acc

/-- Observable result of doOpen: the deduplicated used-window list, the
used-window list before the final empty-window loop (exposed for stating
the produced-no-window condition), the event trace and the final locals. -/
structure DoOpenResult where
  usedWindows : List CodeWindow
  usedWindowsBeforeEmptyOpen : List CodeWindow
  events : List OpenEvent
  openFolderInNewWindow : Bool
  nextId : Nat
deriving DecidableEq

/-- Pipeline of WindowsManager.doOpen up to (and including) the empty-restore
pass, in source order: file block, workspace section, folder section and
the hot-exit empty restores, threading the mutable locals. -/
def doOpenAcc4 (env : Env) (cfg : OpenConfig)
    (workspacesToOpen workspacesToRestore : List WorkspaceIdentifier)
    (foldersToOpen foldersToRestore emptyToRestore : List String)
    (filesToOpen filesToCreate filesToDiff : List WindowToOpen)
    (nextId : Nat) : Acc :=
  let flags := shouldOpenNewWindow env cfg
  let acc0 : Acc :=
    { openFolderInNewWindow := flags.1
      filesToOpen := filesToOpen
      filesToCreate := filesToCreate
      filesToDiff := filesToDiff
      usedWindows := []
      events := []
      nextId := nextId }
  let step1 := fileSectionStage env foldersToRestore emptyToRestore acc0 workspacesToOpen foldersToOpen
  let acc2 := workspaceSectionStage env workspacesToRestore step1.1 step1.2.1
  let acc3 := folderSectionStage env foldersToRestore acc2 step1.2.2
  emptyToRestore.foldl (emptyRestoreStep env) acc3

/-- WindowsManager.doOpen: the placement pipeline in source order — file
block, workspace section, folder section, empty restores, and the final
empty-window loop — followed by deduplication of the used windows. -/
def doOpen (env : Env) (cfg : OpenConfig)
    (workspacesToOpen workspacesToRestore : List WorkspaceIdentifier)
    (foldersToOpen foldersToRestore emptyToRestore : List String)
    (emptyToOpen : Nat)
    (filesToOpen filesToCreate filesToDiff : List WindowToOpen)
    (nextId : Nat) : DoOpenResult :=
  let acc4 := doOpenAcc4 env cfg workspacesToOpen workspacesToRestore foldersToOpen
    foldersToRestore emptyToRestore filesToOpen filesToCreate filesToDiff nextId
  let acc5 := emptyOpenStage env emptyToOpen acc4
  { usedWindows := jsDistinct (fun w : CodeWindow => w) acc5.usedWindows
    usedWindowsBeforeEmptyOpen := acc4.usedWindows
    events := acc5.events
    openFolderInNewWindow := acc5.openFolderInNewWindow
    nextId := acc5.nextId }

/-- File classification at the top of WindowsManager.open: files to open are
the resolved targets with an existing file, files to create the tolerated
nonexistent ones; in diff mode with exactly two plain files those two
become the diff pair and both other lists are emptied. -/
def classifyFiles (diffMode : Bool) (windowsToOpen : List WindowToOpen) :
    List WindowToOpen × List WindowToOpen × List WindowToOpen :=
  let filesToOpen := windowsToOpen.filter (fun p => truthyStr p.filePath && !p.createFilePath)
  let filesToCreate := windowsToOpen.filter (fun p => truthyStr p.filePath && p.createFilePath)
  if diffMode && filesToOpen.length == 2 then ([], [], filesToOpen)
  else (filesToOpen, filesToCreate, [])

/-- WindowsManager.doExtractPathsFromAPI: parse every path, warn (a pure side
effect, not modelled) and drop the ones that do not resolve. -/
def doExtractPathsFromAPI (env : Env) (paths : List String) (gotoLineMode : Bool) :
    List WindowToOpen :=
  coalesce (paths.map (fun p => parsePath env (some p) false gotoLineMode))

/-- WindowsManager.doExtractPathsFromCLI: parse the positional arguments
tolerating nonexistent files; with no resolved path a single empty target
results. -/
def doExtractPathsFromCLI (env : Env) (cli : ParsedArgs) : List WindowToOpen :=
  let pathsToOpen :=
    coalesce (cli.positional.map (fun c => parsePath env (some c) true cli.gotoLineMode))
  if !pathsToOpen.isEmpty then pathsToOpen else [{}]

/-- WindowsManager.getWindowsToOpen: explicit API paths win, then forceEmpty,
then CLI positional arguments, else the previous session is restored. -/
def getWindowsToOpen (env : Env) (cfg : OpenConfig) (ws : ManagerWindowsState) :
    List WindowToOpen :=
  if !cfg.pathsToOpen.isEmpty then
    doExtractPathsFromAPI env cfg.pathsToOpen cfg.cli.gotoLineMode
  else if cfg.forceEmpty then [{}]
  else if !cfg.cli.positional.isEmpty then doExtractPathsFromCLI env cfg.cli
  else doGetWindowsFromLastSession env ws

/-- WindowsManager.doGetUntitledWorkspacesFromLastSession: untitled workspaces
referenced by the previous session whose config paths still resolve. -/
def doGetUntitledWorkspacesFromLastSession (env : Env) (ws : ManagerWindowsState) :
    List WorkspaceIdentifier :=
  let candidates :=
    (match ws.lastActiveWindow with
     | some law =>
       match law.workspace with
       | some c => if env.isUntitledWorkspace c then [c] else []
       | none => []
     | none => []) ++
    ws.openedWindows.filterMap (fun st =>
      match st.workspace with
      | some c => if env.isUntitledWorkspace c then some c else none
      | none => none)
  coalesce (candidates.map (fun c =>
    (parsePath env (some c.configPath) false false).bind (fun w => w.workspace)))

/-- Count of explicitly-empty resolved targets: no workspace, no folder path,
no file path and no backup path. -/
def emptyToOpenCount (windowsToOpen : List WindowToOpen) : Nat :=
  (windowsToOpen.filter (fun w =>
    !w.workspace.isSome && !truthyStr w.folderPath && !truthyStr w.filePath &&
      !truthyStr w.backupPath)).length

/-- WindowsManager.open: resolve targets, classify files, deduplicate
workspaces and folders, merge hot-exit restores on initial startup, count
the explicitly-empty targets, and run doOpen.  The post-processing of the
source (focusing the last active window, the recently-opened list and the
wait-marker deletion) does not change the returned window list and is not
modelled. -/
def openMain (env : Env) (cfg : OpenConfig) (ws : ManagerWindowsState) (nextId : Nat) :
    DoOpenResult :=
  let windowsToOpen := getWindowsToOpen env cfg ws
  let files := classifyFiles cfg.diffMode windowsToOpen
  let workspacesToOpen :=
    jsDistinct (fun w : WorkspaceIdentifier => w.id)
      (windowsToOpen.filterMap (fun w => w.workspace))
  let foldersToOpen :=
    jsDistinct (fun f : String => if env.isLinux then f else f.toLower)
      (windowsToOpen.filterMap (fun w =>
        if truthyStr w.folderPath && !truthyStr w.filePath then w.folderPath else none))
  let restoring := cfg.initialStartup && !truthyStr cfg.cli.extensionDevelopmentPath
  let foldersToRestore := if restoring then env.folderBackupPaths else []
  let workspacesToRestore :=
    if restoring then env.workspaceBackups ++ doGetUntitledWorkspacesFromLastSession env ws
    else []
  let emptyToRestore :=
    if restoring then
      jsDistinct (fun b : String => b)
        (env.emptyWindowBackupPaths ++ windowsToOpen.filterMap (fun w =>
          if !w.workspace.isSome && !truthyStr w.folderPath && truthyStr w.backupPath then
            w.backupPath.map env.basename
          else none))
    else []
  let emptyToOpen := emptyToOpenCount windowsToOpen
  doOpen env cfg workspacesToOpen workspacesToRestore foldersToOpen foldersToRestore
    emptyToRestore emptyToOpen files.1 files.2.1 files.2.2 nextId

/-- Concrete target list for the C4 witness: two existing files and one
tolerated nonexistent file. -/
def diffWitnessTargets : List WindowToOpen :=
  [{ filePath := some "/a.txt" }, { filePath := some "/b.txt" },
   { filePath := some "/c.txt", createFilePath := true }]

/-- Placement events in the sense of claim C7: a workspace or folder target
being placed into a window, the workspace-rename reload, and an
empty-restore window.  All of them set the sticky new-window flag in the
source. -/
def isPlacement : OpenEvent → Bool
  | OpenEvent.workspaceRename _ => true
  | OpenEvent.openWorkspace _ _ => true
  | OpenEvent.openFolder _ _ => true
  | OpenEvent.emptyRestore _ => true
  | _ => false

/-- New-window flag recorded by a workspace or folder placement; all other
events (which either force a new window by construction or target a
designated existing window) report true vacuously. -/
def eventNewWindow : OpenEvent → Bool
  | OpenEvent.openWorkspace _ nw => nw
  | OpenEvent.openFolder _ nw => nw
  | _ => true

/-- Trace property of claim C7: every workspace or folder placement that
comes after any placement consumed the new-window flag as true. -/
def TraceOk (evs : List OpenEvent) : Prop :=
  evs.Pairwise (fun a b => isPlacement a = true → eventNewWindow b = true)

/-- Invariant carried through the doOpen pipeline: the emitted trace is
sticky so far, and once any placement was emitted the flag is true. -/
def AccInv (acc : Acc) : Prop :=
  TraceOk acc.events ∧ (acc.events.any isPlacement = true → acc.openFolderInNewWindow = true)

/-- Relation between two pipeline states: the second extends the used-window
list of the first, and extending by nothing means nothing happened at
all.  Every doOpen stage satisfies it, which yields that a stage that
contributed no window left the whole state untouched. -/
def UsedExt (acc acc2 : Acc) : Prop :=
  ∃ t, acc2.usedWindows = acc.usedWindows ++ t ∧ (t = [] → acc2 = acc)

/-- Windows created by k consecutive forced-new empty opens starting at
counter c. -/
def freshList (c k : Nat) : List CodeWindow :=
  (List.range k).map (fun i => freshWindow (c + i))

theorem migrateWindowRecord_idem (w : WindowState) :
    migrateWindowRecord (migrateWindowRecord w) = migrateWindowRecord w := by
  unfold migrateWindowRecord
  cases h : w.workspacePath <;> simp [h]

theorem migrateWindowRecord_comp_option (o : Option WindowState) :
    o.map (migrateWindowRecord ∘ migrateWindowRecord) = o.map migrateWindowRecord := by
  cases o with
  | none => rfl
  | some w => simp [migrateWindowRecord_idem]

theorem migrateWindowRecord_comp_list (l : List WindowState) :
    l.map (migrateWindowRecord ∘ migrateWindowRecord) = l.map migrateWindowRecord := by
  induction l with
  | nil => rfl
  | cons a t ih => simp [migrateWindowRecord_idem, ih]

/-- The claim C3: applying the legacy-field migration twice yields the same
result as applying it once. -/
theorem migrateLegacyWindowState_idempotent (s : WindowsState) :
    migrateLegacyWindowState (migrateLegacyWindowState s) =
      migrateLegacyWindowState s := by
  unfold migrateLegacyWindowState
  cases hf : s.openedFolders with
  | none =>
    cases hw : s.openedWindows with
    | none =>
      simp [hf, hw, List.map_map, Option.map_map,
        migrateWindowRecord_comp_option, migrateWindowRecord_comp_list]
    | some l =>
      simp [hf, hw, List.map_map, Option.map_map,
        migrateWindowRecord_comp_option, migrateWindowRecord_comp_list]
  | some l =>
    by_cases hl : l.isEmpty
    · cases hw : s.openedWindows with
      | none =>
        simp [hf, hw, hl, List.map_map, Option.map_map,
        migrateWindowRecord_comp_option, migrateWindowRecord_comp_list]
      | some l2 =>
        simp [hf, hw, hl, List.map_map, Option.map_map,
        migrateWindowRecord_comp_option, migrateWindowRecord_comp_list]
    · simp [hf, hl, List.map_map, Option.map_map,
        migrateWindowRecord_comp_option, migrateWindowRecord_comp_list]

/-- The claim C1: while a quit is in progress, the close handler leaves the
whole session state (windowsState and lastClosedWindowState) untouched;
only the quit handler persists state. -/
theorem onBeforeWindowClose_noop_during_quit (isLinux : Bool) (windowCount : Nat)
    (win : CodeWindow) (s : ManagerState) :
    onBeforeWindowClose isLinux true windowCount win s = s := by
  rfl

/-- The claim C2: the quit handler persists a snapshot of every live
non-extension-development-host window exactly when more than one window is
open; with at most one window the persisted openedWindows list is empty. -/
theorem onBeforeQuit_openedWindows (windows : List CodeWindow)
    (getLastActiveWindow : Option CodeWindow) (s : ManagerState) :
    (onBeforeQuit windows getLastActiveWindow s).openedWindows =
      some (if windows.length > 1 then
        (windows.filter (fun w => !w.isExtensionDevelopmentHost)).map toWindowState
      else []) := by
  unfold onBeforeQuit
  rfl

/-- The claim C5: when a single window holding a workspace or folder closes
outside of a quit and it is not an extension development host, every
stored openedWindows entry matching it by workspace id or by folder path
(case-sensitive only on Linux) gets its UI geometry replaced by the
closing window snapshot, and every other entry is left unchanged. -/
theorem onBeforeWindowClose_updates_all_matching (isLinux : Bool) (windowCount : Nat)
    (win : CodeWindow) (s : ManagerState)
    (hdev : win.isExtensionDevelopmentHost = false)
    (hsubject : (win.openedWorkspace.isSome || truthyStr win.openedFolderPath) = true) :
    ((onBeforeWindowClose isLinux false windowCount win s).windowsState.openedWindows.length =
      s.windowsState.openedWindows.length) ∧
    ∀ (i : Nat) (o : WindowState), s.windowsState.openedWindows[i]? = some o →
      (sameWorkspaceOrFolder isLinux win o = true →
        (onBeforeWindowClose isLinux false windowCount win s).windowsState.openedWindows[i]? =
          some { o with uiState := (toWindowState win).uiState }) ∧
      (sameWorkspaceOrFolder isLinux win o = false →
        (onBeforeWindowClose isLinux false windowCount win s).windowsState.openedWindows[i]? =
          some o) := by
  unfold onBeforeWindowClose
  simp only [if_neg (by simp : ¬ (true = false)), Bool.not_false]
  constructor
  · simp [hdev, hsubject]
  · intro i o ho
    constructor
    · intro hm
      simp [hdev, hsubject, List.getElem?_map, ho, hm]
    · intro hm
      simp [hdev, hsubject, List.getElem?_map, ho, hm]

/-- Witness for C5: two stored entries for the same folder path; closing one
of two live windows on that folder updates the UI state of both entries. -/
theorem onBeforeWindowClose_updates_all_matching_witness :
    let win : CodeWindow :=
      { id := 1, openedFolderPath := some "/repo", serializeWindowState := { x := 7 } }
    let e1 : WindowState := { folderPath := some "/repo", uiState := { x := 1 } }
    let e2 : WindowState := { folderPath := some "/repo", uiState := { x := 2 } }
    let s : ManagerState := { windowsState := { openedWindows := [e1, e2] } }
    let r := onBeforeWindowClose true false 2 win s
    r.windowsState.openedWindows[0]? = some { e1 with uiState := { x := 7 } } ∧
    r.windowsState.openedWindows[1]? = some { e2 with uiState := { x := 7 } } := by
  intro win e1 e2 s r
  have h := onBeforeWindowClose_updates_all_matching true 2 win s (by rfl) (by decide)
  exact ⟨(h.2 0 e1 (by rfl)).1 (by decide), (h.2 1 e2 (by rfl)).1 (by decide)⟩

/-- The claim C10: every windows-count-changed event carries counts that
differ by exactly one in the right direction, and its newCount equals the
length of the live window list at the moment the event fires. -/
theorem windowsCountChanged_event_consistent (windows : List CodeWindow) (w : CodeWindow) :
    ((openInBrowserWindowAddAndFire windows w).2.newCount =
        (openInBrowserWindowAddAndFire windows w).2.oldCount + 1 ∧
      (openInBrowserWindowAddAndFire windows w).2.newCount =
        (openInBrowserWindowAddAndFire windows w).1.length) ∧
    ((onWindowClosed windows w).2.newCount + 1 = (onWindowClosed windows w).2.oldCount ∧
      (onWindowClosed windows w).2.newCount = (onWindowClosed windows w).2.oldCount - 1 ∧
      (onWindowClosed windows w).2.newCount = (onWindowClosed windows w).1.length) := by
  refine ⟨⟨?_, ?_⟩, ?_, ?_, ?_⟩ <;>
    simp [openInBrowserWindowAddAndFire, onWindowClosed]

/-- The claim C9: Cancel vetoes the unload; Save with the picker cancelled
vetoes the unload; Save with a target never vetoes, whether the
asynchronous workspace save succeeds or fails. -/
theorem promptToSaveUntitledWorkspace_veto (isWindows isLinux : Bool) (res : Fin 3)
    (saveTarget : Option String) (saveResult : Except Unit Unit) :
    ((promptButtons isWindows isLinux).get
        (Fin.cast (promptButtons_length isWindows isLinux).symm res) =
          ConfirmResult.cancel →
      (promptToSaveUntitledWorkspace isWindows isLinux res saveTarget saveResult).veto =
        true) ∧
    ((promptButtons isWindows isLinux).get
        (Fin.cast (promptButtons_length isWindows isLinux).symm res) =
          ConfirmResult.saveIt →
      saveTarget = none →
      (promptToSaveUntitledWorkspace isWindows isLinux res saveTarget saveResult).veto =
        true) ∧
    ((promptButtons isWindows isLinux).get
        (Fin.cast (promptButtons_length isWindows isLinux).symm res) =
          ConfirmResult.saveIt →
      saveTarget.isSome = true →
      (promptToSaveUntitledWorkspace isWindows isLinux res saveTarget saveResult).veto =
        false) := by
  unfold promptToSaveUntitledWorkspace
  refine ⟨?_, ?_, ?_⟩
  · intro hc
    rw [hc]
  · intro hc ht
    rw [hc, ht]
  · intro hc ht
    rw [hc]
    cases saveTarget with
    | none => simp at ht
    | some t => cases saveResult <;> rfl

theorem promptToSaveUntitledWorkspace_veto_witness :
    (promptToSaveUntitledWorkspace true false 2 none (Except.ok ())).veto = true ∧
    (promptToSaveUntitledWorkspace true false 0 none (Except.ok ())).veto = true ∧
    (promptToSaveUntitledWorkspace true false 0 (some "/w.code-workspace")
      (Except.error ())).veto = false := by
  refine ⟨?_, ?_, ?_⟩
  · exact (promptToSaveUntitledWorkspace_veto true false 2 none (Except.ok ())).1 (by decide)
  · exact (promptToSaveUntitledWorkspace_veto true false 0 none (Except.ok ())).2.1
      (by decide) rfl
  · exact (promptToSaveUntitledWorkspace_veto true false 0 (some "/w.code-workspace")
      (Except.error ())).2.2 (by decide) rfl

/-- The claim C6: in restore mode one, when the persisted last-active window
carries a workspace whose config path no longer resolves to a valid
workspace, the session restore returns exactly one empty-window target. -/
theorem doGetWindowsFromLastSession_one_invalid_workspace (env : Env)
    (ws : ManagerWindowsState) (law : WindowState) (cw : WorkspaceIdentifier)
    (hmode : getRestoreWindowsSetting env = "one")
    (hlaw : ws.lastActiveWindow = some law)
    (hws : law.workspace = some cw)
    (hinvalid : (parsePath env (some cw.configPath) false false).bind
      (fun w => w.workspace) = none) :
    doGetWindowsFromLastSession env ws = [({} : WindowToOpen)] := by
  unfold doGetWindowsFromLastSession
  rw [hmode]
  simp only [hlaw, hws]
  rw [if_pos trivial]
  cases hp : parsePath env (some cw.configPath) false false with
  | none => rfl
  | some v =>
    rw [hp] at hinvalid
    simp only [Option.some_bind] at hinvalid
    simp [hinvalid]

/-- Witness for C6: a last-active window pointing at a workspace config file
that no longer exists on disk restores to a single empty window. -/
theorem doGetWindowsFromLastSession_one_invalid_workspace_witness :
    doGetWindowsFromLastSession {} { lastActiveWindow := some lastActiveDeletedWs } =
      [({} : WindowToOpen)] := by
  exact doGetWindowsFromLastSession_one_invalid_workspace {}
    { lastActiveWindow := some lastActiveDeletedWs } lastActiveDeletedWs
    { id := "w1", configPath := "/gone.code-workspace" }
    (by decide) rfl rfl (by decide)

/-- The claim C4: with diff mode requested, exactly two plainly-resolving
files become the diff pair and both the open and create lists are emptied
(create intents are discarded); any other plain-file count produces no
diff pair and keeps plain open/create semantics. -/
theorem classifyFiles_diffMode (l : List WindowToOpen) :
    let plain := l.filter (fun p => truthyStr p.filePath && !p.createFilePath)
    let creates := l.filter (fun p => truthyStr p.filePath && p.createFilePath)
    (plain.length = 2 → classifyFiles true l = ([], [], plain)) ∧
    (plain.length ≠ 2 → classifyFiles true l = (plain, creates, [])) := by
  intro plain creates
  constructor
  · intro h2
    unfold classifyFiles
    simp only [Bool.true_and]
    rw [if_pos]
    exact Nat.beq_eq_true_eq _ _ |>.mpr h2
  · intro h2
    unfold classifyFiles
    simp only [Bool.true_and]
    rw [if_neg]
    simp only [ne_eq, Nat.beq_eq_true_eq]
    exact h2

/-- Witness for C4: both branches of the classification at concrete inputs;
the two existing files diff and the create intent is dropped, while a
one-file list keeps plain semantics. -/
theorem classifyFiles_diffMode_witness :
    classifyFiles true diffWitnessTargets =
      ([], [], [{ filePath := some "/a.txt" }, { filePath := some "/b.txt" }]) ∧
    classifyFiles true [({ filePath := some "/a.txt" } : WindowToOpen)] =
      ([({ filePath := some "/a.txt" } : WindowToOpen)], [], []) := by
  constructor
  · exact (classifyFiles_diffMode diffWitnessTargets).1 (by decide)
  · exact (classifyFiles_diffMode [({ filePath := some "/a.txt" } : WindowToOpen)]).2
      (by decide)

theorem accInv_append (evs : List OpenEvent) (flag : Bool) (e : OpenEvent) (f2 : Bool)
    (h1 : TraceOk evs) (h2 : evs.any isPlacement = true → flag = true)
    (he : eventNewWindow e = true ∨ eventNewWindow e = flag)
    (hf : f2 = true ∨ (f2 = flag ∧ isPlacement e = false)) :
    TraceOk (evs ++ [e]) ∧ ((evs ++ [e]).any isPlacement = true → f2 = true) := by
  have hflag : (∃ a ∈ evs, isPlacement a = true) → flag = true := by
    intro ⟨a, ha, hpa⟩
    exact h2 (List.any_eq_true.mpr ⟨a, ha, hpa⟩)
  constructor
  · unfold TraceOk at h1 ⊢
    rw [List.pairwise_append]
    refine ⟨h1, List.pairwise_singleton _ _, ?_⟩
    intro a ha b hb hpa
    have hbe : b = e := by simpa using hb
    subst hbe
    cases he with
    | inl h => exact h
    | inr h => rw [h]; exact hflag ⟨a, ha, hpa⟩
  · intro hany
    cases hf with
    | inl h => exact h
    | inr h =>
      rw [h.1]
      rcases List.any_eq_true.mp hany with ⟨a, ha, hpa⟩
      rcases List.mem_append.mp ha with ha2 | ha2
      · exact hflag ⟨a, ha2, hpa⟩
      · have : a = e := by simpa using ha2
        rw [this] at hpa
        rw [hpa] at h
        exact absurd h.2 (by simp)

theorem accInv_routeFilesInto (acc : Acc) (w : CodeWindow) (b : Bool)
    (h : AccInv acc) : AccInv (routeFilesInto acc w b) := by
  have := accInv_append acc.events acc.openFolderInNewWindow (OpenEvent.routeFiles w.id)
    (if b then true else acc.openFolderInNewWindow) h.1 h.2
    (Or.inl rfl)
    (by cases b with
      | true => exact Or.inl rfl
      | false => exact Or.inr ⟨rfl, rfl⟩)
  exact this

theorem accInv_fileSectionStage (env : Env) (foldersToRestore emptyToRestore : List String)
    (acc : Acc) (workspacesToOpen : List WorkspaceIdentifier) (foldersToOpen : List String)
    (h : AccInv acc) :
    AccInv (fileSectionStage env foldersToRestore emptyToRestore acc workspacesToOpen
      foldersToOpen).1 := by
  unfold fileSectionStage
  split
  · split
    · split
      · exact h
      · split
        · split
          · exact h
          · exact accInv_routeFilesInto _ _ false h
        · exact accInv_routeFilesInto _ _ false h
    · exact h
    · exact accInv_append acc.events acc.openFolderInNewWindow OpenEvent.filesNewWindow
        acc.openFolderInNewWindow h.1 h.2 (Or.inl rfl) (Or.inr ⟨rfl, rfl⟩)
  · exact h

theorem accInv_workspaceRenameStep (env : Env) (acc : Acc) (x : WorkspaceIdentifier)
    (h : AccInv acc) : AccInv (workspaceRenameStep env acc x) := by
  unfold workspaceRenameStep
  split
  · split
    · split
      · exact accInv_append acc.events acc.openFolderInNewWindow
          (OpenEvent.workspaceRename _) true h.1 h.2 (Or.inl rfl) (Or.inl rfl)
      · exact h
    · exact h
  · exact h

theorem accInv_openWorkspaceStep (env : Env) (wins : List CodeWindow) (acc : Acc)
    (x : WorkspaceIdentifier) (h : AccInv acc) : AccInv (openWorkspaceStep env wins acc x) := by
  unfold openWorkspaceStep
  split
  · exact h
  · exact accInv_append acc.events acc.openFolderInNewWindow
      (OpenEvent.openWorkspace x.id acc.openFolderInNewWindow) true h.1 h.2
      (Or.inr rfl) (Or.inl rfl)

theorem accInv_openFolderStep (env : Env) (wins : List CodeWindow) (acc : Acc)
    (x : String) (h : AccInv acc) : AccInv (openFolderStep env wins acc x) := by
  unfold openFolderStep
  split
  · exact h
  · exact accInv_append acc.events acc.openFolderInNewWindow
      (OpenEvent.openFolder x acc.openFolderInNewWindow) true h.1 h.2
      (Or.inr rfl) (Or.inl rfl)

theorem accInv_emptyRestoreStep (env : Env) (acc : Acc) (x : String)
    (h : AccInv acc) : AccInv (emptyRestoreStep env acc x) := by
  unfold emptyRestoreStep
  exact accInv_append acc.events acc.openFolderInNewWindow (OpenEvent.emptyRestore x)
    true h.1 h.2 (Or.inl rfl) (Or.inl rfl)

theorem accInv_emptyOpenStep (env : Env) (acc : Acc)
    (h : AccInv acc) : AccInv (emptyOpenStep env acc) := by
  unfold emptyOpenStep
  exact accInv_append acc.events acc.openFolderInNewWindow
    (OpenEvent.openEmpty acc.openFolderInNewWindow) true h.1 h.2 (Or.inl rfl) (Or.inl rfl)

theorem accInv_foldl {β : Type} (step : Acc → β → Acc)
    (hstep : ∀ acc x, AccInv acc → AccInv (step acc x)) :
    ∀ (l : List β) (acc : Acc), AccInv acc → AccInv (l.foldl step acc) := by
  intro l
  induction l with
  | nil => intro acc h; exact h
  | cons a t ih => intro acc h; exact ih (step acc a) (hstep acc a h)

theorem accInv_iterate (f : Acc → Acc) (hf : ∀ acc, AccInv acc → AccInv (f acc)) :
    ∀ (n : Nat) (acc : Acc), AccInv acc → AccInv (f^[n] acc) := by
  intro n
  induction n with
  | zero => intro acc h; exact h
  | succ m ih =>
    intro acc h
    rw [Function.iterate_succ_apply]
    exact ih (f acc) (hf acc h)

theorem accInv_workspaceSectionStage (env : Env)
    (workspacesToRestore : List WorkspaceIdentifier) (acc : Acc)
    (workspacesToOpen : List WorkspaceIdentifier) (h : AccInv acc) :
    AccInv (workspaceSectionStage env workspacesToRestore acc workspacesToOpen) := by
  simp only [workspaceSectionStage]
  generalize allWorkspacesList workspacesToOpen workspacesToRestore = allW
  split
  · exact h
  · have hA := accInv_foldl (workspaceRenameStep env)
      (accInv_workspaceRenameStep env) allW acc h
    split
    · exact accInv_foldl (openWorkspaceStep env _) (accInv_openWorkspaceStep env _) _ _
        (accInv_routeFilesInto _ _ true hA)
    · exact accInv_foldl (openWorkspaceStep env _) (accInv_openWorkspaceStep env _) _ _ hA

theorem accInv_folderSectionStage (env : Env) (foldersToRestore : List String)
    (acc : Acc) (foldersToOpen : List String) (h : AccInv acc) :
    AccInv (folderSectionStage env foldersToRestore acc foldersToOpen) := by
  simp only [folderSectionStage]
  generalize allFoldersList env foldersToOpen foldersToRestore = allF
  split
  · exact h
  · split
    · exact accInv_foldl (openFolderStep env _) (accInv_openFolderStep env _) _ _
        (accInv_routeFilesInto _ _ true h)
    · exact accInv_foldl (openFolderStep env _) (accInv_openFolderStep env _) _ _ h

theorem accInv_emptyOpenStage (env : Env) (n : Nat) (acc : Acc) (h : AccInv acc) :
    AccInv (emptyOpenStage env n acc) := by
  unfold emptyOpenStage
  split
  · exact accInv_iterate (emptyOpenStep env) (accInv_emptyOpenStep env) n acc h
  · exact h

theorem accInv_doOpenAcc4 (env : Env) (cfg : OpenConfig)
    (workspacesToOpen workspacesToRestore : List WorkspaceIdentifier)
    (foldersToOpen foldersToRestore emptyToRestore : List String)
    (filesToOpen filesToCreate filesToDiff : List WindowToOpen)
    (nextId : Nat) :
    AccInv (doOpenAcc4 env cfg workspacesToOpen workspacesToRestore foldersToOpen
      foldersToRestore emptyToRestore filesToOpen filesToCreate filesToDiff nextId) := by
  have h0 : AccInv
      ({ openFolderInNewWindow := (shouldOpenNewWindow env cfg).1
         filesToOpen := filesToOpen
         filesToCreate := filesToCreate
         filesToDiff := filesToDiff
         usedWindows := []
         events := []
         nextId := nextId } : Acc) := by
    exact ⟨List.Pairwise.nil, by simp⟩
  exact accInv_foldl (emptyRestoreStep env) (accInv_emptyRestoreStep env) emptyToRestore _
    (accInv_folderSectionStage env foldersToRestore _ _
      (accInv_workspaceSectionStage env workspacesToRestore _ _
        (accInv_fileSectionStage env foldersToRestore emptyToRestore _ workspacesToOpen
          foldersToOpen h0)))

theorem accInv_doOpenAcc5 (env : Env) (cfg : OpenConfig)
    (workspacesToOpen workspacesToRestore : List WorkspaceIdentifier)
    (foldersToOpen foldersToRestore emptyToRestore : List String)
    (emptyToOpen : Nat) (filesToOpen filesToCreate filesToDiff : List WindowToOpen)
    (nextId : Nat) :
    AccInv (emptyOpenStage env emptyToOpen (doOpenAcc4 env cfg workspacesToOpen
      workspacesToRestore foldersToOpen foldersToRestore emptyToRestore filesToOpen
      filesToCreate filesToDiff nextId)) :=
  accInv_emptyOpenStage env emptyToOpen _
    (accInv_doOpenAcc4 env cfg workspacesToOpen workspacesToRestore foldersToOpen
      foldersToRestore emptyToRestore filesToOpen filesToCreate filesToDiff nextId)

/-- The claim C7: in the event trace of one doOpen call, any workspace or
folder placement that comes after some placement consumed the new-window
flag as true, and the flag itself ends true (it is set by every placement
and never reset within the call). -/
theorem doOpen_newWindowFlag_sticky (env : Env) (cfg : OpenConfig)
    (workspacesToOpen workspacesToRestore : List WorkspaceIdentifier)
    (foldersToOpen foldersToRestore emptyToRestore : List String)
    (emptyToOpen : Nat) (filesToOpen filesToCreate filesToDiff : List WindowToOpen)
    (nextId : Nat) (i j : Nat) (a b : OpenEvent)
    (hij : i < j)
    (ha : (doOpen env cfg workspacesToOpen workspacesToRestore foldersToOpen
      foldersToRestore emptyToRestore emptyToOpen filesToOpen filesToCreate filesToDiff
      nextId).events[i]? = some a)
    (hpa : isPlacement a = true)
    (hb : (doOpen env cfg workspacesToOpen workspacesToRestore foldersToOpen
      foldersToRestore emptyToRestore emptyToOpen filesToOpen filesToCreate filesToDiff
      nextId).events[j]? = some b) :
    eventNewWindow b = true ∧
      (doOpen env cfg workspacesToOpen workspacesToRestore foldersToOpen foldersToRestore
        emptyToRestore emptyToOpen filesToOpen filesToCreate filesToDiff
        nextId).openFolderInNewWindow = true := by
  have hinv := accInv_doOpenAcc5 env cfg workspacesToOpen workspacesToRestore
    foldersToOpen foldersToRestore emptyToRestore emptyToOpen filesToOpen filesToCreate
    filesToDiff nextId
  have hev : (doOpen env cfg workspacesToOpen workspacesToRestore foldersToOpen
      foldersToRestore emptyToRestore emptyToOpen filesToOpen filesToCreate filesToDiff
      nextId).events = (emptyOpenStage env emptyToOpen (doOpenAcc4 env cfg workspacesToOpen
      workspacesToRestore foldersToOpen foldersToRestore emptyToRestore filesToOpen
      filesToCreate filesToDiff nextId)).events := rfl
  have hfl : (doOpen env cfg workspacesToOpen workspacesToRestore foldersToOpen
      foldersToRestore emptyToRestore emptyToOpen filesToOpen filesToCreate filesToDiff
      nextId).openFolderInNewWindow = (emptyOpenStage env emptyToOpen (doOpenAcc4 env cfg
      workspacesToOpen workspacesToRestore foldersToOpen foldersToRestore emptyToRestore
      filesToOpen filesToCreate filesToDiff nextId)).openFolderInNewWindow := rfl
  rw [hev] at ha hb
  rcases List.getElem?_eq_some.mp ha with ⟨hi, hgi⟩
  rcases List.getElem?_eq_some.mp hb with ⟨hj, hgj⟩
  constructor
  · have := (List.pairwise_iff_getElem.mp hinv.1) i j hi hj hij
    rw [hgi, hgj] at this
    exact this hpa
  · rw [hfl]
    refine hinv.2 (List.any_eq_true.mpr ⟨a, ?_, hpa⟩)
    rw [← hgi]
    exact List.getElem_mem hi

/-- Witness for C7: opening one workspace and one folder with no live windows
and default settings places the workspace first (flag false), after which
the folder placement consumed the flag as true and the flag ends true. -/
theorem doOpen_newWindowFlag_sticky_witness :
    eventNewWindow (OpenEvent.openFolder "/f1" true) = true ∧
      (doOpen {} {} [{ id := "w1", configPath := "/w1" }] [] ["/f1"] [] [] 0
        [] [] [] 0).openFolderInNewWindow = true := by
  exact doOpen_newWindowFlag_sticky {} {} [{ id := "w1", configPath := "/w1" }] [] ["/f1"]
    [] [] 0 [] [] [] 0 0 1
    (OpenEvent.openWorkspace "w1" false) (OpenEvent.openFolder "/f1" true)
    (by decide) (by decide) (by decide) (by decide)

theorem usedExt_refl (acc : Acc) : UsedExt acc acc :=
  ⟨[], by simp, fun _ => rfl⟩

theorem usedExt_trans {a b c : Acc} (h1 : UsedExt a b) (h2 : UsedExt b c) : UsedExt a c := by
  rcases h1 with ⟨t1, ht1, hf1⟩
  rcases h2 with ⟨t2, ht2, hf2⟩
  refine ⟨t1 ++ t2, ?_, ?_⟩
  · rw [ht2, ht1, List.append_assoc]
  · intro h
    rcases List.append_eq_nil.mp h with ⟨e1, e2⟩
    have hb := hf1 e1
    have hc := hf2 e2
    rw [hc, hb]

theorem usedExt_append1 {acc acc2 : Acc} (w : CodeWindow)
    (h : acc2.usedWindows = acc.usedWindows ++ [w]) : UsedExt acc acc2 :=
  ⟨[w], h, fun hne => absurd hne (List.cons_ne_nil w [])⟩

theorem usedExt_routeFilesInto (acc : Acc) (w : CodeWindow) (b : Bool) :
    UsedExt acc (routeFilesInto acc w b) :=
  usedExt_append1 w rfl

theorem usedExt_fileSectionStage (env : Env) (foldersToRestore emptyToRestore : List String)
    (acc : Acc) (workspacesToOpen : List WorkspaceIdentifier) (foldersToOpen : List String) :
    UsedExt acc (fileSectionStage env foldersToRestore emptyToRestore acc workspacesToOpen
      foldersToOpen).1 := by
  unfold fileSectionStage
  split
  · split
    · split
      · exact usedExt_refl acc
      · split
        · split
          · exact usedExt_refl acc
          · exact usedExt_routeFilesInto acc _ false
        · exact usedExt_routeFilesInto acc _ false
    · exact usedExt_refl acc
    · exact usedExt_append1 _ rfl
  · exact usedExt_refl acc

theorem usedExt_workspaceRenameStep (env : Env) (acc : Acc) (x : WorkspaceIdentifier) :
    UsedExt acc (workspaceRenameStep env acc x) := by
  unfold workspaceRenameStep
  split
  · split
    · split
      · exact usedExt_append1 _ rfl
      · exact usedExt_refl acc
    · exact usedExt_refl acc
  · exact usedExt_refl acc

theorem usedExt_openWorkspaceStep (env : Env) (wins : List CodeWindow) (acc : Acc)
    (x : WorkspaceIdentifier) : UsedExt acc (openWorkspaceStep env wins acc x) := by
  unfold openWorkspaceStep
  split
  · exact usedExt_refl acc
  · exact usedExt_append1 _ rfl

theorem usedExt_openFolderStep (env : Env) (wins : List CodeWindow) (acc : Acc)
    (x : String) : UsedExt acc (openFolderStep env wins acc x) := by
  unfold openFolderStep
  split
  · exact usedExt_refl acc
  · exact usedExt_append1 _ rfl

theorem usedExt_emptyRestoreStep (env : Env) (acc : Acc) (x : String) :
    UsedExt acc (emptyRestoreStep env acc x) := by
  unfold emptyRestoreStep
  exact usedExt_append1 _ rfl

theorem usedExt_foldl {β : Type} (step : Acc → β → Acc)
    (hstep : ∀ acc x, UsedExt acc (step acc x)) :
    ∀ (l : List β) (acc : Acc), UsedExt acc (l.foldl step acc) := by
  intro l
  induction l with
  | nil => intro acc; exact usedExt_refl acc
  | cons a t ih => intro acc; exact usedExt_trans (hstep acc a) (ih (step acc a))

theorem usedExt_workspaceSectionStage (env : Env)
    (workspacesToRestore : List WorkspaceIdentifier) (acc : Acc)
    (workspacesToOpen : List WorkspaceIdentifier) :
    UsedExt acc (workspaceSectionStage env workspacesToRestore acc workspacesToOpen) := by
  simp only [workspaceSectionStage]
  generalize allWorkspacesList workspacesToOpen workspacesToRestore = allW
  split
  · exact usedExt_refl acc
  · have hA := usedExt_foldl (workspaceRenameStep env) (usedExt_workspaceRenameStep env)
      allW acc
    split
    · exact usedExt_trans hA (usedExt_trans (usedExt_routeFilesInto _ _ true)
        (usedExt_foldl (openWorkspaceStep env _) (usedExt_openWorkspaceStep env _) _ _))
    · exact usedExt_trans hA
        (usedExt_foldl (openWorkspaceStep env _) (usedExt_openWorkspaceStep env _) _ _)

theorem usedExt_folderSectionStage (env : Env) (foldersToRestore : List String)
    (acc : Acc) (foldersToOpen : List String) :
    UsedExt acc (folderSectionStage env foldersToRestore acc foldersToOpen) := by
  simp only [folderSectionStage]
  generalize allFoldersList env foldersToOpen foldersToRestore = allF
  split
  · exact usedExt_refl acc
  · split
    · exact usedExt_trans (usedExt_routeFilesInto _ _ true)
        (usedExt_foldl (openFolderStep env _) (usedExt_openFolderStep env _) _ _)
    · exact usedExt_foldl (openFolderStep env _) (usedExt_openFolderStep env _) _ _

theorem usedExt_doOpenAcc4 (env : Env) (cfg : OpenConfig)
    (workspacesToOpen workspacesToRestore : List WorkspaceIdentifier)
    (foldersToOpen foldersToRestore emptyToRestore : List String)
    (filesToOpen filesToCreate filesToDiff : List WindowToOpen)
    (nextId : Nat) :
    UsedExt
      { openFolderInNewWindow := (shouldOpenNewWindow env cfg).1
        filesToOpen := filesToOpen
        filesToCreate := filesToCreate
        filesToDiff := filesToDiff
        usedWindows := []
        events := []
        nextId := nextId }
      (doOpenAcc4 env cfg workspacesToOpen workspacesToRestore foldersToOpen
        foldersToRestore emptyToRestore filesToOpen filesToCreate filesToDiff nextId) := by
  exact usedExt_trans
    (usedExt_trans
      (usedExt_trans
        (usedExt_fileSectionStage env foldersToRestore emptyToRestore _ workspacesToOpen
          foldersToOpen)
        (usedExt_workspaceSectionStage env workspacesToRestore _ _))
      (usedExt_folderSectionStage env foldersToRestore _ _))
    (usedExt_foldl (emptyRestoreStep env) (usedExt_emptyRestoreStep env) emptyToRestore _)

theorem doOpenAcc4_of_no_window (env : Env) (cfg : OpenConfig)
    (workspacesToOpen workspacesToRestore : List WorkspaceIdentifier)
    (foldersToOpen foldersToRestore emptyToRestore : List String)
    (filesToOpen filesToCreate filesToDiff : List WindowToOpen)
    (nextId : Nat)
    (h : (doOpenAcc4 env cfg workspacesToOpen workspacesToRestore foldersToOpen
      foldersToRestore emptyToRestore filesToOpen filesToCreate filesToDiff
      nextId).usedWindows = []) :
    doOpenAcc4 env cfg workspacesToOpen workspacesToRestore foldersToOpen
      foldersToRestore emptyToRestore filesToOpen filesToCreate filesToDiff nextId =
      { openFolderInNewWindow := (shouldOpenNewWindow env cfg).1
        filesToOpen := filesToOpen
        filesToCreate := filesToCreate
        filesToDiff := filesToDiff
        usedWindows := []
        events := []
        nextId := nextId } := by
  rcases usedExt_doOpenAcc4 env cfg workspacesToOpen workspacesToRestore foldersToOpen
    foldersToRestore emptyToRestore filesToOpen filesToCreate filesToDiff nextId with
    ⟨t, ht, hfix⟩
  rw [h] at ht
  exact hfix (by simpa using ht.symm)

theorem freshList_zero (c : Nat) : freshList c 0 = [] := rfl

theorem freshList_succ (c k : Nat) :
    freshList c (k + 1) = freshWindow c :: freshList (c + 1) k := by
  unfold freshList
  rw [List.range_succ_eq_map, List.map_cons, List.map_map]
  simp only [Nat.add_zero]
  refine congrArg _ ?_
  apply List.map_congr_left
  intro i _
  show freshWindow (c + (i + 1)) = freshWindow (c + 1 + i)
  have hi : c + (i + 1) = c + 1 + i := by omega
  rw [hi]

theorem emptyOpenStep_flag_true (env : Env) (acc : Acc)
    (h : acc.openFolderInNewWindow = true) :
    emptyOpenStep env acc =
      { acc with
        usedWindows := acc.usedWindows ++ [freshWindow acc.nextId]
        events := acc.events ++ [OpenEvent.openEmpty true]
        openFolderInNewWindow := true
        nextId := acc.nextId + 1 } := by
  unfold emptyOpenStep openInBrowserWindowM
  rw [h]
  rfl

theorem emptyOpenIter_true (env : Env) (k : Nat) :
    ∀ acc : Acc, acc.openFolderInNewWindow = true →
      ((emptyOpenStep env)^[k] acc).usedWindows =
          acc.usedWindows ++ freshList acc.nextId k ∧
        ((emptyOpenStep env)^[k] acc).nextId = acc.nextId + k ∧
        ((emptyOpenStep env)^[k] acc).openFolderInNewWindow = true := by
  induction k with
  | zero => intro acc h; exact ⟨by simp [freshList_zero], rfl, h⟩
  | succ m ih =>
    intro acc h
    rw [Function.iterate_succ_apply]
    rw [emptyOpenStep_flag_true env acc h]
    have hrec := ih { acc with
        usedWindows := acc.usedWindows ++ [freshWindow acc.nextId]
        events := acc.events ++ [OpenEvent.openEmpty true]
        openFolderInNewWindow := true
        nextId := acc.nextId + 1 } rfl
    refine ⟨?_, ?_, hrec.2.2⟩
    · rw [hrec.1, freshList_succ]
      show (acc.usedWindows ++ [freshWindow acc.nextId]) ++ freshList (acc.nextId + 1) m =
        acc.usedWindows ++ (freshWindow acc.nextId :: freshList (acc.nextId + 1) m)
      simp
    · rw [hrec.2.1]
      show acc.nextId + 1 + m = acc.nextId + (m + 1)
      omega

theorem freshList_mem_id {w : CodeWindow} {c k : Nat} (h : w ∈ freshList c k) :
    c ≤ w.id := by
  unfold freshList at h
  rcases List.mem_map.mp h with ⟨i, _, hw⟩
  rw [← hw]
  show c ≤ c + i
  omega

theorem freshList_nodup (c k : Nat) : (freshList c k).Nodup := by
  unfold freshList
  refine List.Nodup.map ?_ (List.nodup_range k)
  intro a b hab
  have hid : c + a = c + b := by
    have := congrArg CodeWindow.id hab
    simpa [freshWindow] using this
  omega

theorem cons_freshList_nodup (w0 : CodeWindow) (c k : Nat) (h : w0.id < c) :
    (w0 :: freshList c k).Nodup := by
  refine List.nodup_cons.mpr ⟨?_, freshList_nodup c k⟩
  intro hmem
  have := freshList_mem_id hmem
  omega

theorem jsDistinct_go_eq_self {α κ : Type} [DecidableEq κ] (key : α → κ) :
    ∀ (l : List α) (seen : List κ), (∀ a ∈ l, key a ∉ seen) → (l.map key).Nodup →
      jsDistinct.go key seen l = l := by
  intro l
  induction l with
  | nil => intro seen _ _; rfl
  | cons a t ih =>
    intro seen hseen hnodup
    have hnd : (key a :: t.map key).Nodup := by simpa using hnodup
    have h1 := (List.nodup_cons.mp hnd).1
    have h2 := (List.nodup_cons.mp hnd).2
    unfold jsDistinct.go
    rw [if_neg (hseen a (List.mem_cons_self a t))]
    refine congrArg _ ?_
    refine ih (key a :: seen) ?_ h2
    intro b hb hmem
    rcases List.mem_cons.mp hmem with hk | hk
    · exact h1 (hk ▸ List.mem_map_of_mem key hb)
    · exact hseen b (List.mem_cons_of_mem a hb) hk

theorem jsDistinct_eq_self_of_nodup (l : List CodeWindow) (h : l.Nodup) :
    jsDistinct (fun w : CodeWindow => w) l = l := by
  unfold jsDistinct
  refine jsDistinct_go_eq_self _ l [] ?_ ?_
  · intro a _ hmem
    cases hmem
  · simpa using h

theorem emptyOpenStep_first (env : Env) (acc : Acc) :
    ∃ w0 c1, emptyOpenStep env acc =
      { acc with
        usedWindows := acc.usedWindows ++ [w0]
        events := acc.events ++ [OpenEvent.openEmpty acc.openFolderInNewWindow]
        openFolderInNewWindow := true
        nextId := c1 } ∧
      ((w0 = freshWindow acc.nextId ∧ c1 = acc.nextId + 1) ∨
        (env.lastActive = some w0 ∧ c1 = acc.nextId)) := by
  unfold emptyOpenStep openInBrowserWindowM
  cases hf : acc.openFolderInNewWindow with
  | true =>
    exact ⟨freshWindow acc.nextId, acc.nextId + 1, rfl, Or.inl ⟨rfl, rfl⟩⟩
  | false =>
    cases hl : env.lastActive with
    | some w =>
      exact ⟨w, acc.nextId, rfl, Or.inr ⟨rfl, rfl⟩⟩
    | none =>
      exact ⟨freshWindow acc.nextId, acc.nextId + 1, rfl, Or.inl ⟨rfl, rfl⟩⟩

theorem emptyOpenIterate_from_empty (env : Env) (acc : Acc) (k : Nat)
    (hused : acc.usedWindows = [])
    (hfresh : ∀ w, env.lastActive = some w → w.id < acc.nextId) :
    ((emptyOpenStep env)^[k] acc).usedWindows.length = k ∧
      ((emptyOpenStep env)^[k] acc).usedWindows.Nodup := by
  cases k with
  | zero => simp [hused]
  | succ m =>
    rw [Function.iterate_succ_apply]
    rcases emptyOpenStep_first env acc with ⟨w0, c1, heq, hcases⟩
    rw [heq]
    have hiter := emptyOpenIter_true env m
      { acc with
        usedWindows := acc.usedWindows ++ [w0]
        events := acc.events ++ [OpenEvent.openEmpty acc.openFolderInNewWindow]
        openFolderInNewWindow := true
        nextId := c1 } rfl
    have hu : ((emptyOpenStep env)^[m]
        { acc with
          usedWindows := acc.usedWindows ++ [w0]
          events := acc.events ++ [OpenEvent.openEmpty acc.openFolderInNewWindow]
          openFolderInNewWindow := true
          nextId := c1 }).usedWindows = w0 :: freshList c1 m := by
    
      rw [hiter.1, hused]
      rfl
    have hid : w0.id < c1 := by
      rcases hcases with ⟨hw, hc⟩ | ⟨hw, hc⟩
      · rw [hw, hc]
        show acc.nextId < acc.nextId + 1
        omega
      · rw [hc]
        exact hfresh w0 hw
    constructor
    · rw [hu]
      show (freshList c1 m).length + 1 = m + 1
      unfold freshList
      rw [List.length_map, List.length_range]
    · rw [hu]
      exact cons_freshList_nodup w0 c1 m hid

/-- Amended claim C8 at the doOpen level: when the file, workspace, folder and
empty-restore steps produced no window, doOpen returns exactly emptyToOpen
windows (with fresh window identities not colliding with the last active
window). -/
theorem doOpen_opens_exactly_empty_count (env : Env) (cfg : OpenConfig)
    (workspacesToOpen workspacesToRestore : List WorkspaceIdentifier)
    (foldersToOpen foldersToRestore emptyToRestore : List String)
    (emptyToOpen : Nat) (filesToOpen filesToCreate filesToDiff : List WindowToOpen)
    (nextId : Nat)
    (hpre : (doOpen env cfg workspacesToOpen workspacesToRestore foldersToOpen
      foldersToRestore emptyToRestore emptyToOpen filesToOpen filesToCreate filesToDiff
      nextId).usedWindowsBeforeEmptyOpen = [])
    (hfresh : ∀ w, env.lastActive = some w → w.id < nextId) :
    (doOpen env cfg workspacesToOpen workspacesToRestore foldersToOpen foldersToRestore
      emptyToRestore emptyToOpen filesToOpen filesToCreate filesToDiff
      nextId).usedWindows.length = emptyToOpen := by
  have hused : (doOpenAcc4 env cfg workspacesToOpen workspacesToRestore foldersToOpen
      foldersToRestore emptyToRestore filesToOpen filesToCreate filesToDiff
      nextId).usedWindows = [] := hpre
  have h4 := doOpenAcc4_of_no_window env cfg workspacesToOpen workspacesToRestore
    foldersToOpen foldersToRestore emptyToRestore filesToOpen filesToCreate filesToDiff
    nextId hused
  have hres : (doOpen env cfg workspacesToOpen workspacesToRestore foldersToOpen
      foldersToRestore emptyToRestore emptyToOpen filesToOpen filesToCreate filesToDiff
      nextId).usedWindows =
      jsDistinct (fun w : CodeWindow => w)
        (emptyOpenStage env emptyToOpen (doOpenAcc4 env cfg workspacesToOpen
          workspacesToRestore foldersToOpen foldersToRestore emptyToRestore filesToOpen
          filesToCreate filesToDiff nextId)).usedWindows := rfl
  rw [hres, h4]
  have hstage : emptyOpenStage env emptyToOpen
      ({ openFolderInNewWindow := (shouldOpenNewWindow env cfg).1
         filesToOpen := filesToOpen
         filesToCreate := filesToCreate
         filesToDiff := filesToDiff
         usedWindows := []
         events := []
         nextId := nextId } : Acc) =
      (emptyOpenStep env)^[emptyToOpen]
      ({ openFolderInNewWindow := (shouldOpenNewWindow env cfg).1
         filesToOpen := filesToOpen
         filesToCreate := filesToCreate
         filesToDiff := filesToDiff
         usedWindows := []
         events := []
         nextId := nextId } : Acc) := by
    unfold emptyOpenStage
    simp
  rw [hstage]
  have hloop := emptyOpenIterate_from_empty env
    ({ openFolderInNewWindow := (shouldOpenNewWindow env cfg).1
       filesToOpen := filesToOpen
       filesToCreate := filesToCreate
       filesToDiff := filesToDiff
       usedWindows := []
       events := []
       nextId := nextId } : Acc) emptyToOpen rfl hfresh
  rw [jsDistinct_eq_self_of_nodup _ hloop.2]
  exact hloop.1

/-- Counterexample to claim C8 as stated: an open() call whose only API path
no longer exists resolves to zero targets; the placement steps produce no
window (usedWindowsBeforeEmptyOpen is empty), yet open() returns the empty
window list because the count N of explicitly-empty targets is 0, not at
least 1. -/
theorem openMain_empty_claim_counterexample :
    (openMain {} { pathsToOpen := ["/deleted.txt"] } {} 0).usedWindowsBeforeEmptyOpen = [] ∧
    (openMain {} { pathsToOpen := ["/deleted.txt"] } {} 0).usedWindows = [] ∧
    ¬ 1 ≤ emptyToOpenCount (getWindowsToOpen {} { pathsToOpen := ["/deleted.txt"] } {}) := by
  exact ⟨by decide, by decide, by decide⟩

/-- The claim C8 as amended: when the file, workspace, folder and
empty-restore placement steps produce no window, open() opens exactly N
empty windows where N is the count of explicitly-empty resolved targets —
N can be 0 (the resolved target list can be empty, e.g. when every API
path was dropped), in which case open() returns no windows.  The freshness
hypothesis states that newly allocated window identities do not collide
with the last active window. -/
theorem openMain_opens_exactly_empty_count (env : Env) (cfg : OpenConfig)
    (ws : ManagerWindowsState) (nextId : Nat)
    (hpre : (openMain env cfg ws nextId).usedWindowsBeforeEmptyOpen = [])
    (hfresh : ∀ w, env.lastActive = some w → w.id < nextId) :
    (openMain env cfg ws nextId).usedWindows.length =
      emptyToOpenCount (getWindowsToOpen env cfg ws) := by
  simp only [openMain] at hpre ⊢
  exact doOpen_opens_exactly_empty_count env cfg _ _ _ _ _ _ _ _ _ nextId hpre hfresh

/-- Witness for the amended C8: a default open() call with no paths, no
session and no live windows resolves to one explicitly-empty target and
opens exactly one window. -/
theorem openMain_opens_exactly_empty_count_witness :
    (openMain {} {} {} 0).usedWindows.length =
      emptyToOpenCount (getWindowsToOpen {} {} {}) := by
  exact openMain_opens_exactly_empty_count {} {} {} 0 (by decide)
    (fun w h => Option.noConfusion h)

end VSCode
